import Mathlib

/-!
Verification development for the mantle/coreos-assembler bare-metal install
orchestrator (`platform` package: `Install.PXE`, `Install.setup`, `runPXE`,
`InstallViaISOEmbed`, `setupMetalImage`, `completePxeSetup`, kernel-argument
composition).  The Go source is shallowly embedded: pure helpers become Lean
functions, filesystem state becomes an explicit association list from paths
to entries, and each fallible external effect (temp-dir creation, mkdir,
file writes, symlinks, subprocesses, socket binds, the VM launch) is driven
by an explicit oracle of Booleans so that every control path of the source
is represented.  Temp-directory ownership is tracked by explicit
`tempdirCreated` / `tempdirRemoved` fields on each flow's outcome.
-/

namespace Mantle

/-- File contents as a byte list (one `Nat` per byte/char). -/
abbrev Bytes := List Nat

/-- A filesystem entry: a regular file with contents, or a symlink
holding its target path (as created by `os.Symlink`). -/
inductive FsEntry where
  | file (content : Bytes)
  | symlink (target : String)
deriving Repr, DecidableEq

/-- The filesystem, modelled as an association list from absolute path to
entry.  The head entry for a path shadows older ones. -/
abbrev Fs := List (String × FsEntry)

/-- Look a path up in the filesystem. -/
def fsLookup (fs : Fs) (p : String) : Option FsEntry :=
  (fs.find? (fun e => decide (e.1 = p))).map (fun e => e.2)

/-- Create or overwrite the entry at path `p`. -/
def fsInsert (fs : Fs) (p : String) (e : FsEntry) : Fs :=
  (p, e) :: fs.filter (fun x => decide (x.1 ≠ p))

/-- Read the bytes of a file, following at most one symlink
(the flows here never chain symlinks). -/
def fsReadBytes (fs : Fs) (p : String) : Option Bytes :=
  match fsLookup fs p with
  | some (FsEntry.file b) => some b
  | some (FsEntry.symlink t) =>
    match fsLookup fs t with
    | some (FsEntry.file b) => some b
    | _ => none
  | none => none

/-- `strings.HasSuffix` (kernel-reducible, avoids `String.endsWith`). -/
def strEndsWith (s suf : String) : Bool :=
  List.isSuffixOf suf.data s.data

/-- Whether `s` starts with `pre` (used to model absolute paths). -/
def strHasPrefix (s pre : String) : Bool :=
  List.isPrefixOf pre.data s.data

/-- `strings.Join(parts, sep)`. -/
def strJoin (sep : String) : List String → String
  | [] => ""
  | [a] => a
  | a :: rest => a ++ sep ++ strJoin sep rest

/-- Split a character list at `/` separators. -/
def splitOnSlash : List Char → List (List Char)
  | [] => [[]]
  | c :: rest =>
    match splitOnSlash rest with
    | [] => [[]]
    | h :: t => if c = '/' then [] :: h :: t else (c :: h) :: t

/-- `filepath.Join(a, b)` for a relative component `b`. -/
def pjoin (a b : String) : String := a ++ "/" ++ b

/-- `filepath.Dir`: everything before the final path element. -/
def dirOf (p : String) : String :=
  let parts := (splitOnSlash p.data).map String.mk
  let d := strJoin "/" parts.dropLast
  if d = "" then (if strHasPrefix p "/" then "/" else ".") else d

/-- `filepath.Abs` relative to the process working directory `cwd`. -/
def absPath (cwd p : String) : String :=
  if strHasPrefix p "/" then p else cwd ++ "/" ++ p

/-- `absSymlink(src, dest)`: create `dest` as a symlink to the
absolutized `src` (the fallible outer effect is driven by the caller's
oracle; this is the successful filesystem update). -/
def absSymlink (cwd src dest : String) (fs : Fs) : Fs :=
  fsInsert fs dest (FsEntry.symlink (absPath cwd src))

/-- String contents as bytes. -/
def strBytes (s : String) : Bytes := s.data.map Char.toNat

/-- Result of a Go call: a value, a returned `error`, or a runtime panic. -/
inductive GoResult (α : Type) where
  | ok (val : α)
  | err (msg : String)
  | panicked (msg : String)
deriving Repr, DecidableEq

/-! ## Kernel-argument composition (`baseKargs`, `liveKargs`,
`consoleKernelArgument`, `renderBaseKargs`, `renderInstallKargs`) -/

def baseKargs : List String := ["rd.neednet=1", "ip=dhcp"]

def liveKargs : List String := ["ignition.firstboot", "ignition.platform.id=metal"]

/-- The `consoleKernelArgument` map, entry for entry. -/
def consoleKernelArgument : List (String × String) :=
  [("x86_64", "ttyS0"), ("ppc64le", "hvc0"), ("aarch64", "ttyAMA0"), ("s390x", "ttysclp0")]

/-- Presence-aware lookup in the console map. -/
def consoleLookup (arch : String) : Option String :=
  (consoleKernelArgument.find? (fun e => decide (e.1 = arch))).map (fun e => e.2)

/-- Go map indexing `consoleKernelArgument[arch]`: yields the zero value
`""` when the key is absent. -/
def goMapLookup (arch : String) : String :=
  (consoleLookup arch).getD ""

/-- `renderBaseKargs`: `append(baseKargs, fmt.Sprintf("console=%s", consoleKernelArgument[system.RpmArch()]))`. -/
def renderBaseKargs (arch : String) : List String :=
  baseKargs ++ ["console=" ++ goMapLookup arch]

/-! ## Metal image staging (`setupMetalImage`) -/

/-- Oracle for the fallible effects inside `setupMetalImage` (and the
process working directory used by `filepath.Abs`). -/
structure StageWorld where
  cwd : String
  openOk : Bool
  createOk : Bool
  gzipOk : Bool
  symlinkOk : Bool

/-- `setupMetalImage(builddir, metalimg, destdir)`.  A name ending in
`.raw` is not yet compressed: it is gzipped (modelled by the external
filter `gz`) into `destdir` under `metalimg + ".gz"`.  Any other name is
treated as already compressed and symlinked into `destdir`. -/
def setupMetalImage (w : StageWorld) (gz : Bytes → Bytes)
    (builddir metalimg destdir : String) (fs : Fs) : GoResult (String × Fs) :=
  let metalIsCompressed := !(strEndsWith metalimg ".raw")
  if !metalIsCompressed then
    match (if w.openOk then fsReadBytes fs (pjoin builddir metalimg) else none) with
    | none => GoResult.err "opening metal image"
    | some src =>
      let metalname := metalimg ++ ".gz"
      if w.createOk then
        if w.gzipOk then
          GoResult.ok (metalname, fsInsert fs (pjoin destdir metalname) (FsEntry.file (gz src)))
        else GoResult.err "running gzip"
      else GoResult.err "opening destination file"
  else
    if w.symlinkOk then
      GoResult.ok (metalimg, absSymlink w.cwd (pjoin builddir metalimg) (pjoin destdir metalimg) fs)
    else GoResult.err "creating symlink"

/-! ## Data model (`cosa.Build`, `Install`, `InstalledMachine`,
`kernelSetup`, `pxeSetup`, `installerRun`, `QemuBuilder`) -/

/-- A build artifact reference (`cosa` manifest entry); only `Path` is
consumed by this subsystem. -/
structure Artifact where
  path : String
deriving Repr, DecidableEq

/-- `cosa.Build.BuildArtifacts`: a `nil` pointer is `none`. -/
structure BuildArtifacts where
  kernel : Option Artifact
  initramfs : Option Artifact
  liveKernel : Option Artifact
  liveInitramfs : Option Artifact
  metal : Option Artifact
  liveIso : Option Artifact
deriving Repr, DecidableEq

/-- The parts of `cosa.Build` the installer reads. -/
structure CosaBuild where
  name : String
  ostreeVersion : String
  buildArtifacts : BuildArtifacts
deriving Repr, DecidableEq

/-- The `Install` request.  The lower-case Go fields `kargs`, `ignition`
and `liveIgnition` are "set by the install path". -/
structure Install where
  cosaBuildDir : String
  cosaBuild : CosaBuild
  firmware : String
  console : Bool
  insecure : Bool
  qemuArgs : List String
  legacyInstaller : Bool
  kargs : List String
  ignition : String
  liveIgnition : String
deriving Repr, DecidableEq

/-- The running VM handle produced by `QemuBuilder.Exec` (opaque to this
subsystem; the VM process driver is an external collaborator). -/
structure QemuInstance where
  running : Bool
deriving Repr, DecidableEq

/-- `InstalledMachine`: the caller-facing result. -/
structure InstalledMachine where
  tempdir : String
  qemuInst : QemuInstance
deriving Repr, DecidableEq

/-- `InstalledMachine.Destroy`: removes `tempdir` via `os.RemoveAll` when
it is non-empty.  The model returns the list of paths removed. -/
def InstalledMachine.Destroy (m : InstalledMachine) : List String :=
  if m.tempdir ≠ "" then [m.tempdir] else []

/-- `kernelSetup`: resolved kernel/initramfs artifact names. -/
structure kernelSetup where
  kernel : String
  initramfs : String
deriving Repr, DecidableEq

/-- `pxeSetup`: the per-architecture boot plan; Go zero values are `""`. -/
structure pxeSetup where
  tftpipaddr : String := ""
  boottype : String := ""
  networkdevice : String := ""
  bootindex : String := ""
  pxeimagepath : String := ""
  bootfile : String := ""
deriving Repr, DecidableEq

/-- A disk attached to the VM builder. -/
structure Disk where
  size : String
deriving Repr, DecidableEq

/-- The parts of `QemuBuilder` this subsystem drives. -/
structure QemuBuilder where
  firmware : String
  memory : Nat
  inheritConsole : Bool
  disks : List Disk
  args : List String
deriving Repr, DecidableEq

/-- `newQemuBuilder`: 12G disk, 1536 MiB memory (raised to 16384 on
s390x), console inheritance per request. -/
def newQemuBuilder (arch firmware : String) (console : Bool) : QemuBuilder :=
  let builder : QemuBuilder :=
    { firmware := firmware, memory := 1536, inheritConsole := console,
      disks := [{ size := "12G" }], args := [] }
  if arch = "s390x" then { builder with memory := Nat.max builder.memory 16384 }
  else builder

/-- `setBuilderLiveMemory`: the live installer needs at least 4096 MiB. -/
def setBuilderLiveMemory (builder : QemuBuilder) : QemuBuilder :=
  { builder with memory := Nat.max builder.memory 4096 }

/-- `installerRun`: the install-session state for one PXE attempt. -/
structure installerRun where
  inst : Install
  builder : QemuBuilder
  builddir : String
  tempdir : String
  tftpdir : String
  metalimg : String
  metalname : String
  baseurl : String
  kern : kernelSetup
  pxe : pxeSetup
deriving Repr, DecidableEq

/-! ## Install session setup (`Install.setup`) -/

/-- The architecture switch in `Install.setup`: `none` is the
`Unsupported arch` default branch. -/
def archPxeSetup (arch : String) : Option pxeSetup :=
  if arch = "x86_64" then
    some { tftpipaddr := "192.168.76.2", boottype := "pxe",
           networkdevice := "e1000", pxeimagepath := "/usr/share/syslinux/" }
  else if arch = "ppc64le" then
    some { tftpipaddr := "192.168.76.2", boottype := "grub",
           networkdevice := "virtio-net-pci" }
  else if arch = "s390x" then
    some { tftpipaddr := "10.0.2.2", boottype := "pxe",
           networkdevice := "virtio-net-ccw", bootindex := "1" }
  else none

/-- Oracle for every fallible effect of the two install flows, plus the
ambient process facts (`system.RpmArch()`, the fresh temp-dir path, the
OS-assigned listening port, and the external `gzip -1` filter). -/
structure World where
  arch : String
  tempdirPath : String
  port : Nat
  gz : Bytes → Bytes
  stage : StageWorld
  tempDirOk : Bool
  mkdirTftpOk : Bool
  writeConfigOk : Bool
  symlinkKernelOk : Bool
  symlinkInitramfsOk : Bool
  listenOk : Bool
  pxeMkdirOk : Bool
  mkS390Ok : Bool
  cpReflinkOk : Bool
  grubMknetdirOk : Bool
  execOk : Bool
  writeTargetIgnOk : Bool
  parseLiveOk : Bool
  cpIsoOk : Bool
  stdinPipeOk : Bool
  embedRunOk : Bool

/-- Outcome of `Install.setup`: the returned value or error, the
filesystem afterwards, and the temp-directory bookkeeping (created, and
removed again by the deferred cleanup before returning). -/
structure SetupOutcome where
  result : GoResult installerRun
  fs : Fs
  tempdirCreated : Bool
  tempdirRemoved : Bool

/-- The tail of `Install.setup` after the metal image has been staged:
propagate a staging failure (wrapped), run the architecture switch, bind
the content server, and assemble the returned `installerRun`. -/
def setupAfterStaging (w : World) (inst : Install) (builder : QemuBuilder)
    (builddir tempdir tftpdir metalimg : String) (kern : kernelSetup)
    (fsPrev : Fs) (staging : GoResult (String × Fs)) : SetupOutcome :=
  match staging with
  | GoResult.err e => ⟨GoResult.err ("setting up metal image: " ++ e), fsPrev, true, true⟩
  | GoResult.panicked p => ⟨GoResult.panicked p, fsPrev, true, true⟩
  | GoResult.ok staged =>
    match archPxeSetup w.arch with
    | none => ⟨GoResult.err ("Unsupported arch %s" ++ w.arch), staged.2, true, true⟩
    | some pxe =>
      if !w.listenOk then ⟨GoResult.err "binding listener", staged.2, true, true⟩
      else
        let baseurl := "http://" ++ pxe.tftpipaddr ++ ":" ++ toString w.port
        ⟨GoResult.ok
          { inst := inst, builder := builder, builddir := builddir,
            tempdir := tempdir, tftpdir := tftpdir,
            metalimg := metalimg, metalname := staged.1,
            baseurl := baseurl, kern := kern, pxe := pxe },
          staged.2, true, false⟩

/-- `Install.setup`: artifact-name checks, temp/tftp dir creation, config
write, kernel/initramfs symlinks, metal staging, the architecture switch,
and the content-server bind; on any failure after the temp dir exists the
deferred cleanup removes it, and ownership transfers to the returned
`installerRun` only at the final success point. -/
def Install.setup (w : World) (fs : Fs) (inst : Install) (kern : kernelSetup) : SetupOutcome :=
  if kern.kernel = "" then ⟨GoResult.err "Missing kernel artifact", fs, false, false⟩
  else if kern.initramfs = "" then ⟨GoResult.err "Missing initramfs artifact", fs, false, false⟩
  else
    let builder := newQemuBuilder w.arch inst.firmware inst.console
    if !w.tempDirOk then ⟨GoResult.err "creating temp dir", fs, false, false⟩
    else
      let tempdir := w.tempdirPath
      let tftpdir := pjoin tempdir "tftp"
      if !w.mkdirTftpOk then ⟨GoResult.err "mkdir tftp", fs, true, true⟩
      else
        let builddir := dirOf inst.cosaBuildDir
        if !w.writeConfigOk then ⟨GoResult.err "writing config.ign", fs, true, true⟩
        else
          let fs := fsInsert fs (pjoin tftpdir "config.ign") (FsEntry.file (strBytes inst.ignition))
          if !w.symlinkKernelOk then ⟨GoResult.err "symlinking kernel", fs, true, true⟩
          else
            let fs := absSymlink w.stage.cwd (pjoin builddir kern.kernel) (pjoin tftpdir kern.kernel) fs
            if !w.symlinkInitramfsOk then ⟨GoResult.err "symlinking initramfs", fs, true, true⟩
            else
              let fs := absSymlink w.stage.cwd (pjoin builddir kern.initramfs) (pjoin tftpdir kern.initramfs) fs
              match inst.cosaBuild.buildArtifacts.metal with
              | none => ⟨GoResult.panicked "invalid memory address or nil pointer dereference", fs, true, true⟩
              | some metalArt =>
                let metalimg := metalArt.path
                setupAfterStaging w inst builder builddir tempdir tftpdir metalimg kern fs
                  (setupMetalImage w.stage w.gz builddir metalimg tftpdir fs)

/-! ## Install-action kernel arguments and the composed PXE list -/

/-- `renderInstallKargs`: the install-action group, with the insecure
flag appended last iff the request disabled signature checking. -/
def renderInstallKargs (t : installerRun) : List String :=
  let args := ["coreos.inst=yes", "coreos.inst.install_dev=vda",
    "coreos.inst.image_url=" ++ t.baseurl ++ "/" ++ t.metalname,
    "coreos.inst.ignition_url=" ++ t.baseurl ++ "/config.ign"]
  if t.inst.insecure then args ++ ["coreos.inst.insecure=1"] else args

/-- The kernel-argument composition performed inline by `runPXE`:
base group, then the live group iff non-legacy, then the install group. -/
def composePxeKargs (arch : String) (legacy : Bool) (t : installerRun) : List String :=
  let kargs := renderBaseKargs arch
  let kargs := if !legacy then kargs ++ liveKargs else kargs
  kargs ++ renderInstallKargs t

/-! ## Boot-chain building (`completePxeSetup`) -/

/-- The PXELINUX config stanza written for the `pxe` boot type
(the exact Go raw-string template with its tab indentation). -/
def pxelinuxStanza (kernel initramfs kargsStr : String) : String :=
  "\n\t\tDEFAULT pxeboot\n\t\tTIMEOUT 20\n\t\tPROMPT 0\n\t\tLABEL pxeboot\n\t\t\tKERNEL "
    ++ kernel ++ "\n\t\t\tAPPEND initrd=" ++ initramfs ++ " " ++ kargsStr ++ "\n\t\t"

/-- The GRUB config script written for the `grub` boot type. -/
def grubConfig (kernel kargsStr initramfs : String) : String :=
  "\n\t\t\tdefault=0\n\t\t\ttimeout=1\n\t\t\tmenuentry \"CoreOS (BIOS)\" \x7b\n\t\t\t\techo \"Loading kernel\"\n\t\t\t\tlinux /"
    ++ kernel ++ " " ++ kargsStr ++ "\n\t\t\t\techo \"Loading initrd\"\n\t\t\t\tinitrd "
    ++ initramfs ++ "\n\t\t\t\x7d\n\t\t"

/-- The payload written to `pxelinux.cfg/default`: the PXELINUX stanza,
replaced by the bare joined kernel-argument string on s390x. -/
def pxeConfigContents (arch kernel initramfs kargsStr : String) : String :=
  if arch = "s390x" then kargsStr else pxelinuxStanza kernel initramfs kargsStr

/-- `completePxeSetup(kargs)`: switch on the boot-protocol tag.  `pxe`
writes the config and stages the second-stage binaries (prebuilt copies,
or `mk-s390image` when no prebuilt image path exists); `grub` runs
`grub2-mknetdir` and writes `grub.cfg`; any other tag panics.  On success
the resolved bootfile is recorded back into the plan. -/
def completePxeSetup (w : World) (t : installerRun) (fs : Fs) (kargs : List String) :
    GoResult (installerRun × Fs) :=
  let kargsStr := strJoin " " kargs
  if t.pxe.boottype = "pxe" then
    let pxeconfigdir := pjoin t.tftpdir "pxelinux.cfg"
    if !w.pxeMkdirOk then GoResult.err "mkdir pxelinux.cfg"
    else
      let pxeconfig := pxeConfigContents w.arch t.kern.kernel t.kern.initramfs kargsStr
      let fs := fsInsert fs (pjoin pxeconfigdir "default") (FsEntry.file (strBytes pxeconfig))
      if t.pxe.pxeimagepath = "" then
        if !w.mkS390Ok then GoResult.err "mk-s390image"
        else
          let fs := fsInsert fs (pjoin t.tftpdir "pxelinux.0") (FsEntry.file (strBytes "s390-netboot-image"))
          GoResult.ok ({ t with pxe := { t.pxe with bootfile := "/pxelinux.0" } }, fs)
      else
        if !w.cpReflinkOk then GoResult.err "cp-reflink"
        else GoResult.ok ({ t with pxe := { t.pxe with bootfile := "/pxelinux.0" } }, fs)
  else if t.pxe.boottype = "grub" then
    if !w.grubMknetdirOk then GoResult.err "grub2-mknetdir"
    else
      let fs := fsInsert fs (pjoin t.tftpdir "boot/grub2/grub.cfg")
        (FsEntry.file (strBytes (grubConfig t.kern.kernel kargsStr t.kern.initramfs)))
      GoResult.ok ({ t with pxe := { t.pxe with bootfile := "/boot/grub2/powerpc-ieee1275/core.elf" } }, fs)
  else
    GoResult.panicked ("Unhandled boottype " ++ t.pxe.boottype)

/-! ## VM launch (`installerRun.run`) and the two flows -/

/-- The extra qemu arguments `installerRun.run` appends before `Exec`. -/
def installerRun.runArgs (t : installerRun) : List String :=
  let netdev := t.pxe.networkdevice ++ ",netdev=mynet0,mac=52:54:00:12:34:56"
  let bootArgs :=
    if t.pxe.bootindex = "" then
      ["-boot", "once=n", "-option-rom", "/usr/share/qemu/pxe-rtl8139.rom"]
    else []
  let netdev :=
    if t.pxe.bootindex = "" then netdev
    else netdev ++ ",bootindex=" ++ t.pxe.bootindex
  let usernetdev := "user,id=mynet0,tftp=" ++ t.tftpdir ++ ",bootfile=" ++ t.pxe.bootfile
  let usernetdev :=
    if t.pxe.tftpipaddr ≠ "10.0.2.2" then
      usernetdev ++ ",net=192.168.76.0/24,dhcpstart=192.168.76.9"
    else usernetdev
  bootArgs ++ ["-device", netdev, "-netdev", usernetdev] ++ t.inst.qemuArgs

/-- `installerRun.run`: configure the NIC/netdev and `Exec` the VM. -/
def installerRun.run (w : World) (t : installerRun) : GoResult QemuInstance :=
  let _args := t.builder.args ++ installerRun.runArgs t
  if w.execOk then GoResult.ok { running := true } else GoResult.err "qemu exec"

/-- Outcome of a whole install flow, with temp-directory bookkeeping. -/
structure FlowOutcome where
  result : GoResult InstalledMachine
  tempdirCreated : Bool
  tempdirRemoved : Bool
deriving Repr, DecidableEq

/-- `runPXE(kern, legacy)`: Flow A.  After a successful `setup`, the
deferred `t.destroy()` removes the temp dir on every failure; on success
the source zeroes `t.tempdir` ("Transfer ownership") *before* building
the returned `InstalledMachine` from it. -/
def Install.runPXE (w : World) (fs : Fs) (inst : Install) (kern : kernelSetup)
    (legacy : Bool) : FlowOutcome :=
  let s := Install.setup w fs inst kern
  match s.result with
  | GoResult.err e => { result := GoResult.err e, tempdirCreated := s.tempdirCreated, tempdirRemoved := s.tempdirRemoved }
  | GoResult.panicked p => { result := GoResult.panicked p, tempdirCreated := s.tempdirCreated, tempdirRemoved := s.tempdirRemoved }
  | GoResult.ok t =>
    let t := if !legacy then { t with builder := setBuilderLiveMemory t.builder } else t
    let kargs := composePxeKargs w.arch legacy t
    match completePxeSetup w t s.fs kargs with
    | GoResult.err e => { result := GoResult.err e, tempdirCreated := true, tempdirRemoved := true }
    | GoResult.panicked p => { result := GoResult.panicked p, tempdirCreated := true, tempdirRemoved := true }
    | GoResult.ok completed =>
      let t := completed.1
      match installerRun.run w t with
      | GoResult.err e => { result := GoResult.err e, tempdirCreated := true, tempdirRemoved := true }
      | GoResult.panicked p => { result := GoResult.panicked p, tempdirCreated := true, tempdirRemoved := true }
      | GoResult.ok qinst =>
        let t := { t with tempdir := "" }
        { result := GoResult.ok { tempdir := t.tempdir, qemuInst := qinst },
          tempdirCreated := true, tempdirRemoved := false }

/-- `Install.PXE(kargs, ignition)`: artifact checks, then Flow A with the
legacy or live kernel/initramfs pair and a wrapping error context. -/
def Install.PXE (w : World) (fs : Fs) (inst : Install) (kargs : List String)
    (ignition : String) : FlowOutcome :=
  match inst.cosaBuild.buildArtifacts.metal with
  | none =>
    { result := GoResult.err ("Build " ++ inst.cosaBuild.ostreeVersion ++ " must have a `metal` artifact"),
      tempdirCreated := false, tempdirRemoved := false }
  | some _ =>
    let inst := { inst with kargs := kargs, ignition := ignition }
    if inst.legacyInstaller then
      match inst.cosaBuild.buildArtifacts.kernel with
      | none =>
        { result := GoResult.err ("build " ++ inst.cosaBuild.ostreeVersion ++ " has no legacy installer kernel"),
          tempdirCreated := false, tempdirRemoved := false }
      | some kernelArt =>
        match inst.cosaBuild.buildArtifacts.initramfs with
        | none =>
          { result := GoResult.panicked "invalid memory address or nil pointer dereference",
            tempdirCreated := false, tempdirRemoved := false }
        | some initramfsArt =>
          let o := Install.runPXE w fs inst { kernel := kernelArt.path, initramfs := initramfsArt.path } true
          match o.result with
          | GoResult.err e => { o with result := GoResult.err ("legacy installer: " ++ e) }
          | r => { o with result := r }
    else
      match inst.cosaBuild.buildArtifacts.liveKernel with
      | none =>
        { result := GoResult.err ("build " ++ inst.cosaBuild.name ++ " has no live installer kernel"),
          tempdirCreated := false, tempdirRemoved := false }
      | some kernelArt =>
        match inst.cosaBuild.buildArtifacts.liveInitramfs with
        | none =>
          { result := GoResult.panicked "invalid memory address or nil pointer dereference",
            tempdirCreated := false, tempdirRemoved := false }
        | some initramfsArt =>
          let o := Install.runPXE w fs inst { kernel := kernelArt.path, initramfs := initramfsArt.path } false
          match o.result with
          | GoResult.err e => { o with result := GoResult.err ("testing live installer: " ++ e) }
          | r => { o with result := r }

/-! ## Flow B (`InstallViaISOEmbed`) -/

/-- `defaultQemuHostIPv4` from `man qemu-kvm`. -/
def defaultQemuHostIPv4 : String := "10.0.2.2"

/-- The fixed install-target device. -/
def targetDevice : String := "/dev/vda"

/-- The generated `coreos-installer.service` unit contents. -/
def installerUnit (baseurl metalname pointerIgnitionPath insecureOpt : String) : String :=
  "\n[Unit]\nAfter=network-online.target\nWants=network-online.target\n[Service]\nRemainAfterExit=yes\nType=oneshot\nExecStart=/usr/bin/coreos-installer install --image-url "
    ++ baseurl ++ "/" ++ metalname ++ " --ignition " ++ pointerIgnitionPath ++ " "
    ++ insecureOpt ++ " " ++ targetDevice
    ++ "\nStandardOutput=kmsg+console\nStandardError=kmsg+console\n[Install]\nWantedBy=multi-user.target\n"

/-- `InstallViaISOEmbed(kargs, liveIgnition, targetIgnition)`: Flow B.
Note the injected-kargs guard tests the *field* `inst.kargs`, and the
parameter is assigned to that field only after the guard. -/
def Install.InstallViaISOEmbed (w : World) (fs : Fs) (inst : Install) (kargs : List String)
    (liveIgnition targetIgnition : String) : FlowOutcome :=
  match inst.cosaBuild.buildArtifacts.metal with
  | none =>
    { result := GoResult.err ("Build " ++ inst.cosaBuild.ostreeVersion ++ " must have a `metal` artifact"),
      tempdirCreated := false, tempdirRemoved := false }
  | some metalArt =>
    match inst.cosaBuild.buildArtifacts.liveIso with
    | none =>
      { result := GoResult.err ("Build " ++ inst.cosaBuild.name ++ " must have a live ISO"),
        tempdirCreated := false, tempdirRemoved := false }
    | some liveIsoArt =>
      if inst.kargs.length > 0 then
        { result := GoResult.err "injecting kargs is not supported yet, see https://github.com/coreos/coreos-installer/issues/164",
          tempdirCreated := false, tempdirRemoved := false }
      else
        let inst := { inst with kargs := kargs, ignition := targetIgnition, liveIgnition := liveIgnition }
        if !w.tempDirOk then
          { result := GoResult.err "creating temp dir", tempdirCreated := false, tempdirRemoved := false }
        else
          let tempdir := w.tempdirPath
          if !w.writeTargetIgnOk then
            { result := GoResult.err "writing target.ign", tempdirCreated := true, tempdirRemoved := true }
          else
            let fs := fsInsert fs (pjoin tempdir "target.ign") (FsEntry.file (strBytes inst.ignition))
            let builddir := dirOf inst.cosaBuildDir
            let srcisopath := pjoin builddir liveIsoArt.path
            let metalimg := metalArt.path
            match setupMetalImage w.stage w.gz builddir metalimg tempdir fs with
            | GoResult.err e =>
              { result := GoResult.err ("setting up metal image: " ++ e), tempdirCreated := true, tempdirRemoved := true }
            | GoResult.panicked p =>
              { result := GoResult.panicked p, tempdirCreated := true, tempdirRemoved := true }
            | GoResult.ok staged =>
              let metalname := staged.1
              let fs := staged.2
              if !w.parseLiveOk then
                { result := GoResult.err "parsing provided live config", tempdirCreated := true, tempdirRemoved := true }
              else if !w.listenOk then
                { result := GoResult.err "binding listener", tempdirCreated := true, tempdirRemoved := true }
              else
                let baseurl := "http://" ++ defaultQemuHostIPv4 ++ ":" ++ toString w.port
                let insecureOpt := if inst.insecure then "--insecure" else ""
                let pointerIgnitionPath := "/var/opt/pointer.ign"
                let _unit := installerUnit baseurl metalname pointerIgnitionPath insecureOpt
                let isoEmbeddedPath := pjoin tempdir "test.iso"
                if !w.cpIsoOk then
                  { result := GoResult.err "copying iso", tempdirCreated := true, tempdirRemoved := true }
                else
                  let _fsIso :=
                    match fsReadBytes fs srcisopath with
                    | some b => fsInsert fs isoEmbeddedPath (FsEntry.file b)
                    | none => fs
                  if !w.stdinPipeOk then
                    { result := GoResult.err "opening stdin pipe", tempdirCreated := true, tempdirRemoved := true }
                  else if !w.embedRunOk then
                    { result := GoResult.err "running coreos-installer iso embed", tempdirCreated := true, tempdirRemoved := true }
                  else if !w.execOk then
                    { result := GoResult.err "qemu exec", tempdirCreated := true, tempdirRemoved := true }
                  else
                    { result := GoResult.ok { tempdir := tempdir, qemuInst := { running := true } },
                      tempdirCreated := true, tempdirRemoved := false }

/-! ## Concrete fixtures used by witnesses and counterexamples -/

/-- A staging oracle in which every effect succeeds. -/
def stageOkW : StageWorld :=
  { cwd := "/cwd", openOk := true, createOk := true, gzipOk := true, symlinkOk := true }

/-- A world for architecture `arch` in which every effect succeeds, the
temp dir is `/tmp/kola-testiso1`, the listener gets port 8080, and the
external gzip filter is the identity on bytes. -/
def allOkWorld (arch : String) : World :=
  { arch := arch, tempdirPath := "/tmp/kola-testiso1", port := 8080,
    gz := fun b => b, stage := stageOkW,
    tempDirOk := true, mkdirTftpOk := true, writeConfigOk := true,
    symlinkKernelOk := true, symlinkInitramfsOk := true, listenOk := true,
    pxeMkdirOk := true, mkS390Ok := true, cpReflinkOk := true,
    grubMknetdirOk := true, execOk := true, writeTargetIgnOk := true,
    parseLiveOk := true, cpIsoOk := true, stdinPipeOk := true, embedRunOk := true }

/-- A build with every artifact present. -/
def artC : BuildArtifacts :=
  { kernel := some { path := "inst-kernel" }, initramfs := some { path := "inst-initramfs" },
    liveKernel := some { path := "live-kernel" }, liveInitramfs := some { path := "live-initramfs" },
    metal := some { path := "fcos.raw" }, liveIso := some { path := "fcos.iso" } }

/-- A concrete install request over that build. -/
def instC : Install :=
  { cosaBuildDir := "/srv/prj/builds/latest",
    cosaBuild := { name := "fcos-31", ostreeVersion := "31.1", buildArtifacts := artC },
    firmware := "bios", console := false, insecure := false, qemuArgs := [],
    legacyInstaller := false, kargs := [], ignition := "ign-target", liveIgnition := "ign-live" }

/-- The live kernel/initramfs pair of `instC`. -/
def kernC : kernelSetup := { kernel := "live-kernel", initramfs := "live-initramfs" }

/-- The build directory contents backing `instC`. -/
def fsC : Fs :=
  [("/srv/prj/builds/fcos.raw", FsEntry.file [1, 2, 3]),
   ("/srv/prj/builds/fcos.iso", FsEntry.file [9, 9])]

/-! ## Helper lemmas -/

theorem strData_inj {a b : String} (h : a.data = b.data) : a = b := by
  cases a; cases b; exact congrArg String.mk h

theorem strAppend_data (a b : String) : (a ++ b).data = a.data ++ b.data := by
  cases a; cases b; rfl

theorem strAppend_right_inj (p : String) {a b : String} (h : p ++ a = p ++ b) : a = b := by
  apply strData_inj
  have h2 := congrArg String.data h
  rw [strAppend_data, strAppend_data] at h2
  exact List.append_cancel_left h2

theorem strEndsWith_append (stem tail : String) : strEndsWith (stem ++ tail) tail = true := by
  unfold strEndsWith
  rw [strAppend_data]
  simp [List.isSuffixOf]

theorem fsLookup_insert_self (fs : Fs) (p : String) (e : FsEntry) :
    fsLookup (fsInsert fs p e) p = some e := by
  simp [fsLookup, fsInsert, List.find?_cons_of_pos]

theorem find_filter_of_keep {α : Type} (pd keep : α → Bool)
    (h : ∀ x, pd x = true → keep x = true) :
    ∀ l : List α, List.find? pd (l.filter keep) = List.find? pd l := by
  intro l
  induction l with
  | nil => rfl
  | cons x t ih =>
    by_cases hk : keep x = true
    · rw [List.filter_cons_of_pos hk]
      by_cases hp : pd x = true
      · rw [List.find?_cons_of_pos _ hp, List.find?_cons_of_pos _ hp]
      · rw [List.find?_cons_of_neg _ hp, List.find?_cons_of_neg _ hp, ih]
    · have hp : ¬pd x = true := fun hpx => hk (h x hpx)
      rw [List.filter_cons_of_neg hk, List.find?_cons_of_neg _ hp, ih]

theorem fsLookup_insert_ne (fs : Fs) {p q : String} (e : FsEntry) (h : q ≠ p) :
    fsLookup (fsInsert fs p e) q = fsLookup fs q := by
  unfold fsLookup fsInsert
  rw [List.find?_cons_of_neg]
  · rw [find_filter_of_keep]
    intro x hx
    simp only [decide_eq_true_eq] at hx ⊢
    rw [hx]
    exact h
  · simp only [decide_eq_true_eq]
    exact fun hc => h hc.symm

theorem archPxeSetup_boottype {arch : String} {p : pxeSetup}
    (h : archPxeSetup arch = some p) : p.boottype = "pxe" ∨ p.boottype = "grub" := by
  unfold archPxeSetup at h
  split at h
  · cases h; exact Or.inl rfl
  · split at h
    · cases h; exact Or.inr rfl
    · split at h
      · cases h; exact Or.inl rfl
      · cases h

theorem archPxeSetup_mem {arch : String} {p : pxeSetup}
    (h : archPxeSetup arch = some p) :
    arch = "x86_64" ∨ arch = "ppc64le" ∨ arch = "s390x" := by
  unfold archPxeSetup at h
  split at h
  · exact Or.inl (by assumption)
  · split at h
    · exact Or.inr (Or.inl (by assumption))
    · split at h
      · exact Or.inr (Or.inr (by assumption))
      · cases h

theorem setupAfterStaging_ok_pxe {w : World} {inst : Install} {builder : QemuBuilder}
    {builddir tempdir tftpdir metalimg : String} {kern : kernelSetup} {fsPrev : Fs}
    {staging : GoResult (String × Fs)} {t : installerRun}
    (h : (setupAfterStaging w inst builder builddir tempdir tftpdir metalimg kern fsPrev staging).result
          = GoResult.ok t) :
    archPxeSetup w.arch = some t.pxe := by
  unfold setupAfterStaging at h
  repeat' split at h
  all_goals try simp_all
  all_goals (subst h; rfl)

theorem setup_ok_pxe {w : World} {fs : Fs} {inst : Install} {kern : kernelSetup}
    {t : installerRun} (h : (Install.setup w fs inst kern).result = GoResult.ok t) :
    archPxeSetup w.arch = some t.pxe := by
  unfold Install.setup at h
  iterate 8 all_goals try split at h
  all_goals first
    | exact setupAfterStaging_ok_pxe h
    | simp_all

theorem pxeconfig_key_ne (td : String) :
    pjoin (pjoin td "pxelinux.cfg") "default" ≠ pjoin td "pxelinux.0" := by
  intro hcontra
  have h2 := congrArg String.data hcontra
  simp only [pjoin, strAppend_data, List.append_assoc] at h2
  have h3 := List.append_cancel_left h2
  exact absurd h3 (by decide)

theorem completePxeSetup_panicked_boottype {w : World} {t : installerRun} {fs : Fs}
    {kargs : List String} {msg : String}
    (hc : completePxeSetup w t fs kargs = GoResult.panicked msg) :
    t.pxe.boottype ≠ "pxe" ∧ t.pxe.boottype ≠ "grub" := by
  unfold completePxeSetup at hc
  repeat' split at hc
  all_goals simp_all

theorem completePxeSetup_unknown_panics {w : World} {t : installerRun} {fs : Fs}
    {kargs : List String} (h1 : t.pxe.boottype ≠ "pxe") (h2 : t.pxe.boottype ≠ "grub") :
    completePxeSetup w t fs kargs =
      GoResult.panicked ("Unhandled boottype " ++ t.pxe.boottype) := by
  unfold completePxeSetup
  rw [if_neg h1, if_neg h2]

theorem completePxeSetup_ok_bootfile {w : World} {t : installerRun} {fs : Fs}
    {kargs : List String} {t2 : installerRun} {fs2 : Fs}
    (h : completePxeSetup w t fs kargs = GoResult.ok (t2, fs2)) :
    t2.pxe.bootfile = "/pxelinux.0" ∨ t2.pxe.bootfile = "/boot/grub2/powerpc-ieee1275/core.elf" := by
  unfold completePxeSetup at h
  repeat' split at h
  all_goals try simp_all
  all_goals obtain ⟨h1, h2⟩ := h
  all_goals subst h1
  all_goals first
    | exact Or.inl rfl
    | exact Or.inr rfl

theorem completePxeSetup_writes_pxeconfig {w : World} {t : installerRun} {fs : Fs}
    {kargs : List String} {t2 : installerRun} {fs2 : Fs}
    (hb : t.pxe.boottype = "pxe")
    (h : completePxeSetup w t fs kargs = GoResult.ok (t2, fs2)) :
    fsLookup fs2 (pjoin (pjoin t.tftpdir "pxelinux.cfg") "default")
      = some (FsEntry.file (strBytes
          (pxeConfigContents w.arch t.kern.kernel t.kern.initramfs (strJoin " " kargs)))) := by
  unfold completePxeSetup at h
  rw [if_pos hb] at h
  repeat' split at h
  all_goals try simp_all
  all_goals obtain ⟨h1, h2⟩ := h
  all_goals subst h2
  all_goals first
    | rw [fsLookup_insert_ne _ _ (pxeconfig_key_ne t.tftpdir), fsLookup_insert_self]
    | rw [fsLookup_insert_self]

theorem setup_unsupported_arch (arch : String) (h1 : arch ≠ "x86_64")
    (h2 : arch ≠ "ppc64le") (h3 : arch ≠ "s390x") :
    (Install.setup (allOkWorld arch) fsC instC kernC).result =
      GoResult.err ("Unsupported arch %s" ++ arch) := by
  have harch : archPxeSetup arch = none := by
    unfold archPxeSetup
    rw [if_neg h1, if_neg h2, if_neg h3]
  unfold Install.setup setupAfterStaging
  simp only [allOkWorld]
  rw [harch]
  rfl

theorem runPXE_unsupported_never_ok {w : World} {fs : Fs} {inst : Install}
    {kern : kernelSetup} {legacy : Bool}
    (h1 : w.arch ≠ "x86_64") (h2 : w.arch ≠ "ppc64le") (h3 : w.arch ≠ "s390x") :
    ∀ m, (Install.runPXE w fs inst kern legacy).result ≠ GoResult.ok m := by
  intro m hm
  cases hs : (Install.setup w fs inst kern).result with
  | ok t =>
    have hp := setup_ok_pxe hs
    have harch : archPxeSetup w.arch = none := by
      unfold archPxeSetup
      rw [if_neg h1, if_neg h2, if_neg h3]
    rw [harch] at hp
    cases hp
  | err e =>
    simp only [Install.runPXE, hs] at hm
    exact GoResult.noConfusion hm
  | panicked p =>
    simp only [Install.runPXE, hs] at hm
    exact GoResult.noConfusion hm

theorem fsReadBytes_insert_file (fs : Fs) (p : String) (b : Bytes) :
    fsReadBytes (fsInsert fs p (FsEntry.file b)) p = some b := by
  unfold fsReadBytes
  rw [fsLookup_insert_self]

theorem fsReadBytes_insert_symlink (fs : Fs) {p tgt : String} (b : Bytes)
    (hne : tgt ≠ p) (hsrc : fsLookup fs tgt = some (FsEntry.file b)) :
    fsReadBytes (fsInsert fs p (FsEntry.symlink tgt)) p = some b := by
  simp [fsReadBytes, fsLookup_insert_self, fsLookup_insert_ne fs (FsEntry.symlink tgt) hne, hsrc]

/-! ## Claims -/

/-- Claim C1: the claim says a successful `runPXE` hands ownership of the
temp directory to the returned `InstalledMachine`, whose `tempdir` field
names the directory and whose `Destroy()` removes it.  The code instead
zeroes `t.tempdir` *before* building the returned handle from it: on a
fully successful x86_64 live PXE install the returned machine's `tempdir`
is `""`, its `Destroy()` removes nothing, and the session's deferred
cleanup has already been disarmed — the directory leaks with no owner. -/
theorem c1_pxe_success_leaks_tempdir :
    (Install.runPXE (allOkWorld "x86_64") fsC instC kernC false).result =
      GoResult.ok { tempdir := "", qemuInst := { running := true } }
    ∧ (Install.runPXE (allOkWorld "x86_64") fsC instC kernC false).tempdirCreated = true
    ∧ (Install.runPXE (allOkWorld "x86_64") fsC instC kernC false).tempdirRemoved = false
    ∧ InstalledMachine.Destroy { tempdir := "", qemuInst := { running := true } } = []
    ∧ (allOkWorld "x86_64").tempdirPath = "/tmp/kola-testiso1" := by decide

/-- Claim C2: the claim says `InstallViaISOEmbed` rejects caller-supplied
injected kernel arguments before creating any temp dir or listener.  The
code's guard reads the struct field `inst.kargs`, which is assigned from
the parameter only *after* the guard: on a fresh `Install` (empty field)
a call with `kargs = ["foo=bar"]` sails past the guard, creates the temp
directory, and succeeds, silently ignoring the arguments.  The guard only
fires when the field was already non-empty before the call. -/
theorem c2_iso_embed_does_not_reject_injected_kargs :
    (Install.InstallViaISOEmbed (allOkWorld "x86_64") fsC instC ["foo=bar"] "" "").result =
      GoResult.ok { tempdir := "/tmp/kola-testiso1", qemuInst := { running := true } }
    ∧ (Install.InstallViaISOEmbed (allOkWorld "x86_64") fsC instC ["foo=bar"] "" "").tempdirCreated = true
    ∧ instC.kargs = []
    ∧ (Install.InstallViaISOEmbed (allOkWorld "x86_64") fsC { instC with kargs := ["x"] } [] "" "").result =
      GoResult.err "injecting kargs is not supported yet, see https://github.com/coreos/coreos-installer/issues/164" := by
  decide

/-- Claim C3, counterexample: for an architecture outside the console map
(here `riscv64`), composing the base kernel arguments is *not* a hard
configuration error — `renderBaseKargs` is total and silently yields the
empty-device console argument `console=`, exactly the fallback the claim
rules out. -/
theorem c3_unmapped_arch_silent_fallback :
    renderBaseKargs "riscv64" = ["rd.neednet=1", "ip=dhcp", "console="]
    ∧ "console=" ∈ renderBaseKargs "riscv64" := by decide

/-- Claim C3 (amended): for every architecture in the fixed map the
composed base kernel arguments are exactly
`[rd.neednet=1, ip=dhcp, console=<mapped tty>]`; for an architecture
outside the map `renderBaseKargs` does not error but silently yields
`console=` with an empty device; the hard configuration error for
unsupported architectures is raised instead by `Install.setup`, so every
architecture that reaches kernel-argument composition is in the map. -/
theorem c3_console_mapping_amended :
    (∀ arch tty, consoleLookup arch = some tty →
       renderBaseKargs arch = ["rd.neednet=1", "ip=dhcp", "console=" ++ tty])
    ∧ (∀ arch, consoleLookup arch = none →
       renderBaseKargs arch = ["rd.neednet=1", "ip=dhcp", "console="])
    ∧ consoleLookup "x86_64" = some "ttyS0"
    ∧ consoleLookup "ppc64le" = some "hvc0"
    ∧ consoleLookup "aarch64" = some "ttyAMA0"
    ∧ consoleLookup "s390x" = some "ttysclp0"
    ∧ (∀ (w : World) (fs : Fs) (inst : Install) (kern : kernelSetup) (t : installerRun),
        (Install.setup w fs inst kern).result = GoResult.ok t →
        (consoleLookup w.arch).isSome = true) := by
  refine ⟨?_, ?_, by decide, by decide, by decide, by decide, ?_⟩
  · intro arch tty h
    simp [renderBaseKargs, goMapLookup, h, baseKargs]
  · intro arch h
    simp [renderBaseKargs, goMapLookup, h, baseKargs]
  · intro w fs inst kern t h
    rcases archPxeSetup_mem (setup_ok_pxe h) with h1 | h1 | h1 <;> rw [h1] <;> decide

/-- Witness for the amended C3 at concrete architectures. -/
theorem c3_console_mapping_amended_witness :
    renderBaseKargs "ppc64le" = ["rd.neednet=1", "ip=dhcp", "console=hvc0"]
    ∧ renderBaseKargs "riscv64" = ["rd.neednet=1", "ip=dhcp", "console="] :=
  ⟨c3_console_mapping_amended.1 "ppc64le" "hvc0" (by decide),
   c3_console_mapping_amended.2.1 "riscv64" (by decide)⟩

/-- Claim C4, counterexample: the claim says a filename ending in `.raw`
stages as a byte-identical reference to the source.  The code does the
opposite: `img.raw` is gzip-compressed into a *new* file `img.raw.gz`
whose bytes are the compressor's output, not the source bytes, and no
reference (symlink) to the source is produced. -/
theorem c4_raw_is_compressed_counterexample :
    setupMetalImage stageOkW (fun b => 99 :: b) "/b" "img.raw" "/d"
        [("/b/img.raw", FsEntry.file [1, 2])]
      = GoResult.ok ("img.raw.gz",
          [("/d/img.raw.gz", FsEntry.file [99, 1, 2]), ("/b/img.raw", FsEntry.file [1, 2])])
    ∧ ("img.raw.gz" ≠ "img.raw")
    ∧ fsReadBytes [("/d/img.raw.gz", FsEntry.file [99, 1, 2]), ("/b/img.raw", FsEntry.file [1, 2])]
        "/d/img.raw.gz" ≠ some [1, 2] := by decide

/-- Claim C4 (amended, branches swapped to match the code and §4.2): a
metal image filename ending in `.raw` stages as a compressed copy — the
output name is the source name plus `.gz` and decompressing the staged
bytes reproduces the source bytes exactly; every other filename stages as
an absolute-symlink reference whose resolution is byte-identical to the
source. -/
theorem c4_metal_staging_amended (w : StageWorld) (gz gunzip : Bytes → Bytes)
    (hinv : ∀ b, gunzip (gz b) = b)
    (builddir metalimg destdir : String) (fs : Fs) (src : Bytes)
    (hopen : w.openOk = true) (hcreate : w.createOk = true)
    (hgzip : w.gzipOk = true) (hsym : w.symlinkOk = true) :
    (strEndsWith metalimg ".raw" = true →
      fsReadBytes fs (pjoin builddir metalimg) = some src →
      setupMetalImage w gz builddir metalimg destdir fs =
        GoResult.ok (metalimg ++ ".gz",
          fsInsert fs (pjoin destdir (metalimg ++ ".gz")) (FsEntry.file (gz src)))
      ∧ strEndsWith (metalimg ++ ".gz") ".gz" = true
      ∧ (fsReadBytes (fsInsert fs (pjoin destdir (metalimg ++ ".gz")) (FsEntry.file (gz src)))
           (pjoin destdir (metalimg ++ ".gz"))).map gunzip = some src)
    ∧ (strEndsWith metalimg ".raw" = false →
        fsLookup fs (pjoin builddir metalimg) = some (FsEntry.file src) →
        strHasPrefix (pjoin builddir metalimg) "/" = true →
        pjoin builddir metalimg ≠ pjoin destdir metalimg →
        setupMetalImage w gz builddir metalimg destdir fs =
          GoResult.ok (metalimg,
            fsInsert fs (pjoin destdir metalimg) (FsEntry.symlink (pjoin builddir metalimg)))
        ∧ fsReadBytes (fsInsert fs (pjoin destdir metalimg)
              (FsEntry.symlink (pjoin builddir metalimg))) (pjoin destdir metalimg) = some src) := by
  constructor
  · intro hraw hsrc
    refine ⟨?_, strEndsWith_append metalimg ".gz", ?_⟩
    · simp [setupMetalImage, hraw, hopen, hcreate, hgzip, hsrc]
    · rw [fsReadBytes_insert_file]
      simp [hinv src]
  · intro hraw hsrc habs hne
    constructor
    · simp [setupMetalImage, hraw, hsym, absSymlink, absPath, habs]
    · exact fsReadBytes_insert_symlink fs src hne hsrc

/-- Witness for the amended C4 on concrete raw and non-raw names. -/
theorem c4_metal_staging_amended_witness :
    (setupMetalImage stageOkW (fun b => b) "/b" "m.raw" "/d" [("/b/m.raw", FsEntry.file [7])] =
       GoResult.ok ("m.raw.gz", fsInsert [("/b/m.raw", FsEntry.file [7])] (pjoin "/d" "m.raw.gz")
         (FsEntry.file [7]))
     ∧ strEndsWith ("m.raw" ++ ".gz") ".gz" = true)
    ∧ (setupMetalImage stageOkW (fun b => b) "/b" "m.raw.gz" "/d" [("/b/m.raw.gz", FsEntry.file [8])] =
        GoResult.ok ("m.raw.gz", fsInsert [("/b/m.raw.gz", FsEntry.file [8])] (pjoin "/d" "m.raw.gz")
          (FsEntry.symlink (pjoin "/b" "m.raw.gz")))) := by
  have h := c4_metal_staging_amended stageOkW (fun b => b) (fun b => b) (fun _ => rfl)
    "/b" "m.raw" "/d" [("/b/m.raw", FsEntry.file [7])] [7] rfl rfl rfl rfl
  have h2 := c4_metal_staging_amended stageOkW (fun b => b) (fun b => b) (fun _ => rfl)
    "/b" "m.raw.gz" "/d" [("/b/m.raw.gz", FsEntry.file [8])] [8] rfl rfl rfl rfl
  have hr := h.1 (by decide) (by decide)
  have hs := h2.2 (by decide) (by decide) (by decide) (by decide)
  exact ⟨⟨hr.1, hr.2.1⟩, hs.1⟩

/-- Claim C5: `setupMetalImage` — a name not ending in `.raw` is staged
as an absolute symlink `destdir/metalimg → builddir/metalimg` and the
name is returned unchanged; a name ending in `.raw` is compressed in one
pass into `destdir` under the derived name `metalimg + ".gz"`, which is
returned; any I/O or subprocess failure during compression yields an
error and no name. -/
theorem c5_setupMetalImage_behavior (w : StageWorld) (gz : Bytes → Bytes)
    (builddir metalimg destdir : String) (fs : Fs) (src : Bytes) :
    (strEndsWith metalimg ".raw" = false → w.symlinkOk = true →
       setupMetalImage w gz builddir metalimg destdir fs =
         GoResult.ok (metalimg, fsInsert fs (pjoin destdir metalimg)
           (FsEntry.symlink (absPath w.cwd (pjoin builddir metalimg)))))
    ∧ (strHasPrefix (pjoin builddir metalimg) "/" = true →
        absPath w.cwd (pjoin builddir metalimg) = pjoin builddir metalimg)
    ∧ (strEndsWith metalimg ".raw" = true → w.openOk = true →
        fsReadBytes fs (pjoin builddir metalimg) = some src →
        w.createOk = true → w.gzipOk = true →
        setupMetalImage w gz builddir metalimg destdir fs =
          GoResult.ok (metalimg ++ ".gz",
            fsInsert fs (pjoin destdir (metalimg ++ ".gz")) (FsEntry.file (gz src))))
    ∧ (strEndsWith metalimg ".raw" = true →
        (w.openOk = false ∨ fsReadBytes fs (pjoin builddir metalimg) = none ∨
         w.createOk = false ∨ w.gzipOk = false) →
        ∃ e, setupMetalImage w gz builddir metalimg destdir fs = GoResult.err e) := by
  refine ⟨?_, ?_, ?_, ?_⟩
  · intro hraw hsym
    simp [setupMetalImage, hraw, hsym, absSymlink]
  · intro habs
    simp [absPath, habs]
  · intro hraw hopen hsrc hcreate hgzip
    simp [setupMetalImage, hraw, hopen, hcreate, hgzip, hsrc]
  · intro hraw hfail
    rcases hfail with hf | hf | hf | hf
    · exact ⟨"opening metal image", by simp [setupMetalImage, hraw, hf]⟩
    · cases ho : w.openOk <;>
        exact ⟨"opening metal image", by simp [setupMetalImage, hraw, hf, ho]⟩
    · cases ho : w.openOk
      · exact ⟨"opening metal image", by simp [setupMetalImage, hraw, ho]⟩
      · cases hrb : fsReadBytes fs (pjoin builddir metalimg)
        · exact ⟨"opening metal image", by simp [setupMetalImage, hraw, ho, hrb]⟩
        · exact ⟨"opening destination file", by simp [setupMetalImage, hraw, ho, hrb, hf]⟩
    · cases ho : w.openOk
      · exact ⟨"opening metal image", by simp [setupMetalImage, hraw, ho]⟩
      · cases hrb : fsReadBytes fs (pjoin builddir metalimg)
        · exact ⟨"opening metal image", by simp [setupMetalImage, hraw, ho, hrb]⟩
        · cases hc : w.createOk
          · exact ⟨"opening destination file", by simp [setupMetalImage, hraw, ho, hrb, hc]⟩
          · exact ⟨"running gzip", by simp [setupMetalImage, hraw, ho, hrb, hc, hf]⟩

/-- Witness for C5 on concrete inputs: the non-raw symlink branch, the
raw compression branch, and a failing-compression error. -/
theorem c5_setupMetalImage_behavior_witness :
    (setupMetalImage stageOkW (fun b => 0 :: b) "/b" "m.raw.gz" "/d"
        [("/b/m.raw.gz", FsEntry.file [5])] =
      GoResult.ok ("m.raw.gz", fsInsert [("/b/m.raw.gz", FsEntry.file [5])] (pjoin "/d" "m.raw.gz")
        (FsEntry.symlink (absPath stageOkW.cwd (pjoin "/b" "m.raw.gz")))))
    ∧ (setupMetalImage stageOkW (fun b => 0 :: b) "/b" "m.raw" "/d"
          [("/b/m.raw", FsEntry.file [5])] =
        GoResult.ok ("m.raw" ++ ".gz",
          fsInsert [("/b/m.raw", FsEntry.file [5])] (pjoin "/d" ("m.raw" ++ ".gz"))
            (FsEntry.file [0, 5])))
    ∧ (∃ e, setupMetalImage { stageOkW with gzipOk := false } (fun b => 0 :: b) "/b" "m.raw" "/d"
          [("/b/m.raw", FsEntry.file [5])] = GoResult.err e) := by
  refine ⟨?_, ?_, ?_⟩
  · exact (c5_setupMetalImage_behavior stageOkW (fun b => 0 :: b) "/b" "m.raw.gz" "/d"
      [("/b/m.raw.gz", FsEntry.file [5])] [5]).1 (by decide) (by decide)
  · exact (c5_setupMetalImage_behavior stageOkW (fun b => 0 :: b) "/b" "m.raw" "/d"
      [("/b/m.raw", FsEntry.file [5])] [5]).2.2.1 (by decide) (by decide) (by decide) (by decide) (by decide)
  · exact (c5_setupMetalImage_behavior { stageOkW with gzipOk := false } (fun b => 0 :: b) "/b" "m.raw" "/d"
      [("/b/m.raw", FsEntry.file [5])] [5]).2.2.2 (by decide) (Or.inr (Or.inr (Or.inr (by decide))))

/-- The `installerRun` produced by a successful x86_64 `Install.setup`
over the concrete fixtures. -/
def instRunC : installerRun :=
  { inst := instC,
    builder := { firmware := "bios", memory := 1536, inheritConsole := false,
                 disks := [{ size := "12G" }], args := [] },
    builddir := "/srv/prj/builds", tempdir := "/tmp/kola-testiso1",
    tftpdir := "/tmp/kola-testiso1/tftp", metalimg := "fcos.raw",
    metalname := "fcos.raw.gz", baseurl := "http://192.168.76.2:8080",
    kern := kernC,
    pxe := { tftpipaddr := "192.168.76.2", boottype := "pxe", networkdevice := "e1000",
             bootindex := "", pxeimagepath := "/usr/share/syslinux/", bootfile := "" } }

/-- Claim C6: `completePxeSetup` panics exactly when the plan's boot
protocol tag lies outside {"pxe", "grub"}; for every `installerRun`
produced by a successful `Install.setup` (whose architecture switch
assigns only "pxe" or "grub"), the panic branch is unreachable and a
successful `completePxeSetup` records a bootfile path into the plan. -/
theorem c6_completePxeSetup_panic_iff (w w2 : World) (fs fs2 : Fs) (inst : Install)
    (kern : kernelSetup) (kargs : List String) (t : installerRun) :
    ((∃ msg, completePxeSetup w2 t fs2 kargs = GoResult.panicked msg) ↔
       ¬(t.pxe.boottype = "pxe" ∨ t.pxe.boottype = "grub"))
    ∧ ((Install.setup w fs inst kern).result = GoResult.ok t →
         (t.pxe.boottype = "pxe" ∨ t.pxe.boottype = "grub")
         ∧ (∀ msg, completePxeSetup w2 t fs2 kargs ≠ GoResult.panicked msg)
         ∧ (∀ t2 fs3, completePxeSetup w2 t fs2 kargs = GoResult.ok (t2, fs3) →
              t2.pxe.bootfile = "/pxelinux.0" ∨
              t2.pxe.bootfile = "/boot/grub2/powerpc-ieee1275/core.elf")) := by
  constructor
  · constructor
    · rintro ⟨msg, hm⟩
      have hb := completePxeSetup_panicked_boottype hm
      exact fun hc => hc.elim (fun h => hb.1 h) (fun h => hb.2 h)
    · intro hn
      exact ⟨_, completePxeSetup_unknown_panics
        (fun hc => hn (Or.inl hc)) (fun hc => hn (Or.inr hc))⟩
  · intro hok
    have hb := archPxeSetup_boottype (setup_ok_pxe hok)
    refine ⟨hb, ?_, ?_⟩
    · intro msg hm
      have h2 := completePxeSetup_panicked_boottype hm
      exact hb.elim (fun h => h2.1 h) (fun h => h2.2 h)
    · intro t2 fs3 h
      exact completePxeSetup_ok_bootfile h

/-- Witness for C6: the concrete x86_64 setup result has boot type "pxe"
and `completePxeSetup` never panics on it. -/
theorem c6_completePxeSetup_panic_iff_witness :
    (instRunC.pxe.boottype = "pxe" ∨ instRunC.pxe.boottype = "grub")
    ∧ (∀ msg, completePxeSetup (allOkWorld "x86_64") instRunC [] ["a"] ≠
        GoResult.panicked msg) := by
  have h := (c6_completePxeSetup_panic_iff (allOkWorld "x86_64") (allOkWorld "x86_64")
    fsC [] instC kernC ["a"] instRunC).2 (by decide)
  exact ⟨h.1, h.2.1⟩

/-- Claim C7: the kernel-argument list `runPXE` composes has the fixed
group order — base group (`rd.neednet=1`, `ip=dhcp`, `console=<arch tty>`)
first; then the live-mode group iff the request is non-legacy; then the
install-action group with the image URL built from the content-server
base URL plus the staged metal name and the ignition URL; and last the
`coreos.inst.insecure=1` flag iff the request set `Insecure`. -/
theorem c7_pxe_kargs_order (arch tty : String) (legacy : Bool) (t : installerRun)
    (h : consoleLookup arch = some tty) :
    composePxeKargs arch legacy t =
      ["rd.neednet=1", "ip=dhcp", "console=" ++ tty]
        ++ (if legacy then [] else ["ignition.firstboot", "ignition.platform.id=metal"])
        ++ (["coreos.inst=yes", "coreos.inst.install_dev=vda",
             "coreos.inst.image_url=" ++ t.baseurl ++ "/" ++ t.metalname,
             "coreos.inst.ignition_url=" ++ t.baseurl ++ "/config.ign"]
            ++ (if t.inst.insecure then ["coreos.inst.insecure=1"] else [])) := by
  cases legacy <;> cases hin : t.inst.insecure <;>
    simp [composePxeKargs, renderBaseKargs, renderInstallKargs, goMapLookup, h, baseKargs,
      liveKargs, hin]

/-- Witness for C7 on the concrete live-mode s390x composition. -/
theorem c7_pxe_kargs_order_witness :
    composePxeKargs "s390x" false instRunC =
      ["rd.neednet=1", "ip=dhcp", "console=" ++ "ttysclp0"]
        ++ ["ignition.firstboot", "ignition.platform.id=metal"]
        ++ ["coreos.inst=yes", "coreos.inst.install_dev=vda",
            "coreos.inst.image_url=" ++ instRunC.baseurl ++ "/" ++ instRunC.metalname,
            "coreos.inst.ignition_url=" ++ instRunC.baseurl ++ "/config.ign"] := by
  have h := c7_pxe_kargs_order "s390x" "ttysclp0" false instRunC (by decide)
  simpa using h

/-- Claim C8: `Install.PXE` errors naming the missing artifact — metal
artifact absent, legacy mode without a legacy installer kernel, or live
mode without a live installer kernel — and `InstallViaISOEmbed` errors
when the metal artifact or the live ISO is absent; in every case no temp
directory has been created when the error is returned. -/
theorem c8_missing_artifact_errors (w : World) (fs : Fs) (inst : Install)
    (kargs : List String) (ign liveIgn tgtIgn : String) :
    (inst.cosaBuild.buildArtifacts.metal = none →
       Install.PXE w fs inst kargs ign =
         { result := GoResult.err ("Build " ++ inst.cosaBuild.ostreeVersion ++ " must have a `metal` artifact"),
           tempdirCreated := false, tempdirRemoved := false })
    ∧ (∀ m, inst.cosaBuild.buildArtifacts.metal = some m → inst.legacyInstaller = true →
        inst.cosaBuild.buildArtifacts.kernel = none →
        Install.PXE w fs inst kargs ign =
          { result := GoResult.err ("build " ++ inst.cosaBuild.ostreeVersion ++ " has no legacy installer kernel"),
            tempdirCreated := false, tempdirRemoved := false })
    ∧ (∀ m, inst.cosaBuild.buildArtifacts.metal = some m → inst.legacyInstaller = false →
        inst.cosaBuild.buildArtifacts.liveKernel = none →
        Install.PXE w fs inst kargs ign =
          { result := GoResult.err ("build " ++ inst.cosaBuild.name ++ " has no live installer kernel"),
            tempdirCreated := false, tempdirRemoved := false })
    ∧ (inst.cosaBuild.buildArtifacts.metal = none →
        Install.InstallViaISOEmbed w fs inst kargs liveIgn tgtIgn =
          { result := GoResult.err ("Build " ++ inst.cosaBuild.ostreeVersion ++ " must have a `metal` artifact"),
            tempdirCreated := false, tempdirRemoved := false })
    ∧ (∀ m, inst.cosaBuild.buildArtifacts.metal = some m →
        inst.cosaBuild.buildArtifacts.liveIso = none →
        Install.InstallViaISOEmbed w fs inst kargs liveIgn tgtIgn =
          { result := GoResult.err ("Build " ++ inst.cosaBuild.name ++ " must have a live ISO"),
            tempdirCreated := false, tempdirRemoved := false }) := by
  refine ⟨?_, ?_, ?_, ?_, ?_⟩
  · intro h; simp [Install.PXE, h]
  · intro m hm hl hk; simp [Install.PXE, hm, hl, hk]
  · intro m hm hl hk; simp [Install.PXE, hm, hl, hk]
  · intro h; simp [Install.InstallViaISOEmbed, h]
  · intro m hm hiso; simp [Install.InstallViaISOEmbed, hm, hiso]

/-- A build lacking its metal artifact. -/
def instNoMetal : Install :=
  { instC with cosaBuild := { instC.cosaBuild with buildArtifacts := { artC with metal := none } } }

/-- A legacy-mode request on a build lacking the legacy installer kernel. -/
def instNoLegacyKernel : Install :=
  { instC with
    legacyInstaller := true
    cosaBuild := { instC.cosaBuild with buildArtifacts := { artC with kernel := none } } }

/-- A live-mode request on a build lacking the live installer kernel. -/
def instNoLiveKernel : Install :=
  { instC with cosaBuild := { instC.cosaBuild with buildArtifacts := { artC with liveKernel := none } } }

/-- A build lacking the live ISO. -/
def instNoLiveIso : Install :=
  { instC with cosaBuild := { instC.cosaBuild with buildArtifacts := { artC with liveIso := none } } }

/-- Witness for C8 on the four concrete missing-artifact requests. -/
theorem c8_missing_artifact_errors_witness :
    Install.PXE (allOkWorld "x86_64") fsC instNoMetal [] "ign" =
      { result := GoResult.err ("Build " ++ instNoMetal.cosaBuild.ostreeVersion ++ " must have a `metal` artifact"),
        tempdirCreated := false, tempdirRemoved := false }
    ∧ Install.PXE (allOkWorld "x86_64") fsC instNoLegacyKernel [] "ign" =
      { result := GoResult.err ("build " ++ instNoLegacyKernel.cosaBuild.ostreeVersion ++ " has no legacy installer kernel"),
        tempdirCreated := false, tempdirRemoved := false }
    ∧ Install.PXE (allOkWorld "x86_64") fsC instNoLiveKernel [] "ign" =
      { result := GoResult.err ("build " ++ instNoLiveKernel.cosaBuild.name ++ " has no live installer kernel"),
        tempdirCreated := false, tempdirRemoved := false }
    ∧ Install.InstallViaISOEmbed (allOkWorld "x86_64") fsC instNoMetal [] "" "" =
      { result := GoResult.err ("Build " ++ instNoMetal.cosaBuild.ostreeVersion ++ " must have a `metal` artifact"),
        tempdirCreated := false, tempdirRemoved := false }
    ∧ Install.InstallViaISOEmbed (allOkWorld "x86_64") fsC instNoLiveIso [] "" "" =
      { result := GoResult.err ("Build " ++ instNoLiveIso.cosaBuild.name ++ " must have a live ISO"),
        tempdirCreated := false, tempdirRemoved := false } := by
  refine ⟨?_, ?_, ?_, ?_, ?_⟩
  · exact (c8_missing_artifact_errors (allOkWorld "x86_64") fsC instNoMetal [] "ign" "" "").1 (by decide)
  · exact (c8_missing_artifact_errors (allOkWorld "x86_64") fsC instNoLegacyKernel [] "ign" "" "").2.1
      { path := "fcos.raw" } (by decide) (by decide) (by decide)
  · exact (c8_missing_artifact_errors (allOkWorld "x86_64") fsC instNoLiveKernel [] "ign" "" "").2.2.1
      { path := "fcos.raw" } (by decide) (by decide) (by decide)
  · exact (c8_missing_artifact_errors (allOkWorld "x86_64") fsC instNoMetal [] "ign" "" "").2.2.2.1 (by decide)
  · exact (c8_missing_artifact_errors (allOkWorld "x86_64") fsC instNoLiveIso [] "ign" "" "").2.2.2.2
      { path := "fcos.raw" } (by decide) (by decide)

/-- Claim C9: in the PXE boot-chain step, the s390x config payload is
exactly the joined kernel-argument string and nothing else; for every
other PXE architecture the payload is the structured PXELINUX stanza
(DEFAULT/TIMEOUT/PROMPT/LABEL/KERNEL/APPEND) embedding the same joined
argument string verbatim; and a successful `completePxeSetup` writes that
payload to `pxelinux.cfg/default`. -/
theorem c9_pxe_config_contents (w : World) (t : installerRun) (fs : Fs)
    (kargs : List String) (kernel initramfs kargsStr : String) :
    (pxeConfigContents "s390x" kernel initramfs kargsStr = kargsStr)
    ∧ (w.arch ≠ "s390x" →
        pxeConfigContents w.arch kernel initramfs kargsStr =
          "\n\t\tDEFAULT pxeboot\n\t\tTIMEOUT 20\n\t\tPROMPT 0\n\t\tLABEL pxeboot\n\t\t\tKERNEL "
            ++ kernel ++ "\n\t\t\tAPPEND initrd=" ++ initramfs ++ " " ++ kargsStr ++ "\n\t\t")
    ∧ (t.pxe.boottype = "pxe" → ∀ t2 fs2,
        completePxeSetup w t fs kargs = GoResult.ok (t2, fs2) →
        fsLookup fs2 (pjoin (pjoin t.tftpdir "pxelinux.cfg") "default") =
          some (FsEntry.file (strBytes
            (pxeConfigContents w.arch t.kern.kernel t.kern.initramfs (strJoin " " kargs))))) := by
  refine ⟨rfl, ?_, ?_⟩
  · intro hne
    simp [pxeConfigContents, pxelinuxStanza, hne]
  · intro hb t2 fs2 h
    exact completePxeSetup_writes_pxeconfig hb h

/-- Witness for C9: the x86_64 stanza shape and the concrete config file
written by a successful x86_64 `completePxeSetup`. -/
theorem c9_pxe_config_contents_witness :
    pxeConfigContents "x86_64" "k" "i" "a b" =
      "\n\t\tDEFAULT pxeboot\n\t\tTIMEOUT 20\n\t\tPROMPT 0\n\t\tLABEL pxeboot\n\t\t\tKERNEL "
        ++ "k" ++ "\n\t\t\tAPPEND initrd=" ++ "i" ++ " " ++ "a b" ++ "\n\t\t"
    ∧ fsLookup
        (fsInsert [] (pjoin (pjoin instRunC.tftpdir "pxelinux.cfg") "default")
          (FsEntry.file (strBytes (pxeConfigContents "x86_64" "live-kernel" "live-initramfs" "a b"))))
        (pjoin (pjoin instRunC.tftpdir "pxelinux.cfg") "default") =
      some (FsEntry.file (strBytes
        (pxeConfigContents "x86_64" instRunC.kern.kernel instRunC.kern.initramfs
          (strJoin " " ["a", "b"])))) := by
  constructor
  · exact (c9_pxe_config_contents (allOkWorld "x86_64") instRunC [] ["a", "b"] "k" "i" "a b").2.1
      (by decide)
  · exact (c9_pxe_config_contents (allOkWorld "x86_64") instRunC [] ["a", "b"] "k" "i" "a b").2.2
      (by decide)
      { instRunC with pxe := { instRunC.pxe with bootfile := "/pxelinux.0" } }
      (fsInsert [] (pjoin (pjoin instRunC.tftpdir "pxelinux.cfg") "default")
        (FsEntry.file (strBytes (pxeConfigContents "x86_64" "live-kernel" "live-initramfs" "a b"))))
      (by decide)

/-- Claim C10: `Install.setup` accepts exactly x86_64, ppc64le and s390x:
success implies membership in that set, each of the three architectures
is in fact accepted (a fully successful setup exists for it), and every
other architecture — including aarch64, which does have a console-map
entry — gets an "Unsupported arch" error, so no network-install flow can
ever produce a machine on aarch64. -/
theorem c10_setup_supported_arches (w : World) (fs : Fs) (inst : Install)
    (kern : kernelSetup) (legacy : Bool) (arch : String) :
    consoleLookup "aarch64" = some "ttyAMA0"
    ∧ (∀ t, (Install.setup w fs inst kern).result = GoResult.ok t →
        (w.arch = "x86_64" ∨ w.arch = "ppc64le" ∨ w.arch = "s390x"))
    ∧ ((arch = "x86_64" ∨ arch = "ppc64le" ∨ arch = "s390x") →
        ∃ t, (Install.setup (allOkWorld arch) fsC instC kernC).result = GoResult.ok t)
    ∧ (arch ≠ "x86_64" → arch ≠ "ppc64le" → arch ≠ "s390x" →
        (Install.setup (allOkWorld arch) fsC instC kernC).result =
          GoResult.err ("Unsupported arch %s" ++ arch))
    ∧ (w.arch = "aarch64" →
        ∀ m, (Install.runPXE w fs inst kern legacy).result ≠ GoResult.ok m) := by
  refine ⟨by decide, ?_, ?_, ?_, ?_⟩
  · intro t h
    exact archPxeSetup_mem (setup_ok_pxe h)
  · rintro (rfl | rfl | rfl)
    · exact ⟨instRunC, by decide⟩
    · exact ⟨_, rfl⟩
    · exact ⟨_, rfl⟩
  · exact setup_unsupported_arch arch
  · intro ha
    exact runPXE_unsupported_never_ok (by rw [ha]; decide) (by rw [ha]; decide) (by rw [ha]; decide)

/-- Witness for C10: concrete acceptance of ppc64le and s390x, the
concrete rejection of riscv64, and (with its console entry present)
aarch64 never yielding a machine. -/
theorem c10_setup_supported_arches_witness :
    (∃ t, (Install.setup (allOkWorld "ppc64le") fsC instC kernC).result = GoResult.ok t)
    ∧ (∃ t, (Install.setup (allOkWorld "s390x") fsC instC kernC).result = GoResult.ok t)
    ∧ (Install.setup (allOkWorld "riscv64") fsC instC kernC).result =
      GoResult.err ("Unsupported arch %s" ++ "riscv64")
    ∧ (Install.runPXE (allOkWorld "aarch64") fsC instC kernC false).result ≠
        GoResult.ok { tempdir := "", qemuInst := { running := true } } := by
  refine ⟨?_, ?_, ?_, ?_⟩
  · exact (c10_setup_supported_arches (allOkWorld "aarch64") fsC instC kernC false
      "ppc64le").2.2.1 (Or.inr (Or.inl rfl))
  · exact (c10_setup_supported_arches (allOkWorld "aarch64") fsC instC kernC false
      "s390x").2.2.1 (Or.inr (Or.inr rfl))
  · exact (c10_setup_supported_arches (allOkWorld "aarch64") fsC instC kernC false
      "riscv64").2.2.2.1 (by decide) (by decide) (by decide)
  · exact (c10_setup_supported_arches (allOkWorld "aarch64") fsC instC kernC false
      "riscv64").2.2.2.2 rfl { tempdir := "", qemuInst := { running := true } }

end Mantle
